import Mathlib

/-!
Verification development for the BBH Holdings ERP-lite tracker (app.py).

The application stores six entity types in a relational store (SQLite via
SQLAlchemy) and computes rollups over them.  We embed the data model as plain
Lean structures, a database state as lists of rows, and each operation of the
source as a Lean function translated from the corresponding Python code.

Monetary columns are `Numeric(14, 2)` in the store; the SQL layer sums them
exactly, so amounts and their sums are modelled as exact rationals (`ℚ`).
The one place where the source's use of binary `float` is itself the question
(decimal precision of the aggregates) is treated separately and not over this
exact-arithmetic model.
-/

namespace Erp

/-- Calendar date, as stored in the `Date` columns (year, month, day). -/
structure CalDate where
  year : Nat
  month : Nat
  day : Nat
deriving DecidableEq, Repr

/-- Row of the `companies` table: `id`, `name` (unique), `is_parent`. -/
structure Company where
  id : Nat
  name : String
  is_parent : Bool
deriving DecidableEq, Repr

/-- Row of the `subsidiaries` table: `id`, `name` (unique), `company_id`. -/
structure Subsidiary where
  id : Nat
  name : String
  company_id : Nat
deriving DecidableEq, Repr

/-- Row of the `clients` table: `id`, `name` (unique), `contact`, `email`. -/
structure Client where
  id : Nat
  name : String
  contact : String
  email : String
deriving DecidableEq, Repr

/-- Row of the `contracts` table.  `contract_value`, `retainer` and
`percent_to_subsidiary` are nullable columns read through `x or 0` in the
source, hence `Option`. -/
structure Contract where
  id : Nat
  title : String
  subsidiary_id : Nat
  client_id : Nat
  signed_date : Option CalDate
  contract_value : Option ℚ
  retainer : Option ℚ
  percent_to_subsidiary : Option ℚ
  status : String
  notes : String
deriving DecidableEq, Repr

/-- Row of the `expenses` table. -/
structure Expense where
  id : Nat
  contract_id : Nat
  amount : ℚ
  description : String
  date : CalDate
deriving DecidableEq, Repr

/-- Row of the `revenues` table. -/
structure Revenue where
  id : Nat
  contract_id : Nat
  amount : ℚ
  date : CalDate
  description : String
deriving DecidableEq, Repr

/-- Row of the `equity_awards` table. -/
structure EquityAward where
  id : Nat
  contract_id : Nat
  recipient : String
  percent : ℚ
  notes : String
  date : CalDate
deriving DecidableEq, Repr

/-- The whole database: the six tables (rows in insertion order; primary keys
are auto-increment, modelled as `length + 1` on insert). -/
structure DB where
  companies : List Company
  subsidiaries : List Subsidiary
  clients : List Client
  contracts : List Contract
  revenues : List Revenue
  expenses : List Expense
  equities : List EquityAward
deriving DecidableEq, Repr

/-- The empty database (fresh schema, e.g. right after a wipe). -/
def emptyDB : DB := ⟨[], [], [], [], [], [], []⟩

/-- Result record of `calc_contract_aggregates` (the dict it returns). -/
structure ContractAgg where
  revenue : ℚ
  expenses : ℚ
  profit : ℚ
  subsidiary_share : ℚ
deriving DecidableEq, Repr

/-- `calc_contract_aggregates(sess, contract)`:
`SELECT COALESCE(SUM(amount), 0) WHERE contract_id = contract.id` over
revenues and expenses (SQL `SUM` of no rows is NULL, coalesced to 0, which is
the sum of the empty list), `profit = revenue - expenses`, and
`subsidiary_share = profit * (contract.percent_to_subsidiary or 0) / 100`. -/
def calc_contract_aggregates (db : DB) (contract : Contract) : ContractAgg :=
  let total_revenue :=
    ((db.revenues.filter (fun r => r.contract_id == contract.id)).map
      (fun r => r.amount)).sum
  let total_expenses :=
    ((db.expenses.filter (fun e => e.contract_id == contract.id)).map
      (fun e => e.amount)).sum
  let profit := total_revenue - total_expenses
  let subsidiary_share := profit * (contract.percent_to_subsidiary.getD 0) / 100
  { revenue := total_revenue
    expenses := total_expenses
    profit := profit
    subsidiary_share := subsidiary_share }

/-- Result record of `aggregate_for_subsidiary` (the dict it returns;
`contracts` is the number of contracts of the subsidiary). -/
structure SubsidiaryAgg where
  revenue : ℚ
  expenses : ℚ
  profit : ℚ
  contracts : Nat
deriving DecidableEq, Repr

/-- `aggregate_for_subsidiary(sess, subsidiary_id)`: fetch all contracts with
this `subsidiary_id`, start from the zero dict with `contracts = len(...)`,
and accumulate each contract's aggregates in a loop. -/
def aggregate_for_subsidiary (db : DB) (subsidiary_id : Nat) : SubsidiaryAgg :=
  let contracts := db.contracts.filter (fun c => c.subsidiary_id == subsidiary_id)
  contracts.foldl
    (fun agg c =>
      let a := calc_contract_aggregates db c
      { agg with
        revenue := agg.revenue + a.revenue
        expenses := agg.expenses + a.expenses
        profit := agg.profit + a.profit })
    { revenue := 0, expenses := 0, profit := 0, contracts := contracts.length }

/-- Result record of `aggregate_for_company` (the dict it returns;
`subsidiaries` is the number of subsidiaries of the company). -/
structure CompanyAgg where
  revenue : ℚ
  expenses : ℚ
  profit : ℚ
  subsidiaries : Nat
deriving DecidableEq, Repr

/-- `aggregate_for_company(sess, company_id)`: fetch all subsidiaries with
this `company_id`, start from the zero dict with `subsidiaries = len(...)`,
and accumulate each subsidiary's aggregates in a loop. -/
def aggregate_for_company (db : DB) (company_id : Nat) : CompanyAgg :=
  let subs := db.subsidiaries.filter (fun s => s.company_id == company_id)
  subs.foldl
    (fun agg s =>
      let a := aggregate_for_subsidiary db s.id
      { agg with
        revenue := agg.revenue + a.revenue
        expenses := agg.expenses + a.expenses
        profit := agg.profit + a.profit })
    { revenue := 0, expenses := 0, profit := 0, subsidiaries := subs.length }

/-- Concrete example database of the spec: one contract (id 1, 50 percent to
subsidiary), revenues [500, 300] and one expense [200] against it. -/
def exampleContract : Contract :=
  { id := 1, title := "Example", subsidiary_id := 1, client_id := 1
    signed_date := none, contract_value := some 1000, retainer := some 0
    percent_to_subsidiary := some 50, status := "signed", notes := "" }

def exampleDB : DB :=
  { companies := [{ id := 1, name := "Black Bear Holdings", is_parent := true }]
    subsidiaries := [{ id := 1, name := "NexxusGovSec", company_id := 1 }]
    clients := [{ id := 1, name := "Acme", contact := "", email := "" }]
    contracts := [exampleContract]
    revenues :=
      [ { id := 1, contract_id := 1, amount := 500, date := ⟨2024, 1, 1⟩, description := "" }
      , { id := 2, contract_id := 1, amount := 300, date := ⟨2024, 2, 1⟩, description := "" } ]
    expenses :=
      [ { id := 1, contract_id := 1, amount := 200, description := "", date := ⟨2024, 1, 15⟩ } ]
    equities := [] }

/-- UI outcome of a form submission: `st.warning(msg)` or `st.success(msg)`. -/
inductive UiMsg
  | warning : String → UiMsg
  | success : String → UiMsg
deriving DecidableEq, Repr

/-- The `client_form` submit handler: empty name warns "Client name required";
an existing client with the same name (SQL `name = ?`, case-sensitive in
SQLite) warns "Client exists" and inserts nothing; otherwise the client row is
added and committed. -/
def create_client (db : DB) (cname contact email : String) : DB × UiMsg :=
  if cname = "" then
    (db, UiMsg.warning "Client name required")
  else if (db.clients.filter (fun c => c.name == cname)).isEmpty = false then
    (db, UiMsg.warning "Client exists")
  else
    ({ db with
        clients := db.clients ++
          [{ id := db.clients.length + 1, name := cname, contact := contact, email := email }] },
      UiMsg.success ("Created client: " ++ cname))

/-- The `subsidiary_form` submit handler.  `parent_choice` is the selected
entry of `comp_options` (company name paired with its id), `none` when no
company exists to choose from.  Empty name or missing parent warns; an
existing subsidiary with the same name warns "Subsidiary exists"; otherwise
the subsidiary row is added under the chosen parent and committed. -/
def create_subsidiary (db : DB) (sname : String) (parent_choice : Option (String × Nat)) :
    DB × UiMsg :=
  match parent_choice with
  | none => (db, UiMsg.warning "Subsidiary name and parent required")
  | some (pname, pid) =>
      if sname = "" then
        (db, UiMsg.warning "Subsidiary name and parent required")
      else if (db.subsidiaries.filter (fun s => s.name == sname)).isEmpty = false then
        (db, UiMsg.warning "Subsidiary exists")
      else
        ({ db with
            subsidiaries := db.subsidiaries ++
              [{ id := db.subsidiaries.length + 1, name := sname, company_id := pid }] },
          UiMsg.success ("Created subsidiary " ++ sname ++ " under " ++ pname))

/-- Insert into `companies`; the `commit` enforces the UNIQUE constraint on
`companies.name` and raises `IntegrityError` on a duplicate.  On success
returns the new state and the auto-assigned id of the new row. -/
def insert_company (db : DB) (nm : String) (isParent : Bool) : Except String (DB × Nat) :=
  if (db.companies.filter (fun c => c.name == nm)).isEmpty = false then
    Except.error "UNIQUE constraint failed: companies.name"
  else
    Except.ok
      ({ db with
          companies := db.companies ++
            [{ id := db.companies.length + 1, name := nm, is_parent := isParent }] },
        db.companies.length + 1)

/-- Insert into `subsidiaries`; the `commit` enforces the UNIQUE constraint on
`subsidiaries.name`. -/
def insert_subsidiary_row (db : DB) (nm : String) (cid : Nat) : Except String DB :=
  if (db.subsidiaries.filter (fun s => s.name == nm)).isEmpty = false then
    Except.error "UNIQUE constraint failed: subsidiaries.name"
  else
    Except.ok
      { db with
          subsidiaries := db.subsidiaries ++
            [{ id := db.subsidiaries.length + 1, name := nm, company_id := cid }] }

/-- The loop of the bootstrap handler: for each of the two default names, add
a subsidiary under `pid` only if none with that name exists, then commit. -/
def bootstrap_subs (db : DB) (pid : Nat) : Except String DB :=
  ["NexxusGovSec", "3SixMedia"].foldl
    (fun acc nm =>
      match acc with
      | Except.error e => Except.error e
      | Except.ok d =>
          if (d.subsidiaries.filter (fun s => s.name == nm)).isEmpty = false then
            Except.ok d
          else
            insert_subsidiary_row d nm pid)
    (Except.ok db)

/-- The sidebar "Create default parent & subsidiaries" handler: look up a
company named "BBH"; if none, create a company named "Black Bear Holdings"
(parent) and commit — note the lookup name and the created name differ in the
source — then ensure the two default subsidiaries exist under the parent. -/
def bootstrap_default_org (db : DB) : Except String DB :=
  match db.companies.find? (fun c => c.name == "BBH") with
  | some parent => bootstrap_subs db parent.id
  | none =>
      match insert_company db "Black Bear Holdings" true with
      | Except.error e => Except.error e
      | Except.ok (db2, pid) => bootstrap_subs db2 pid

/-- The `finance_form` submit handler for a Revenue record: it adds the row
with the given `contract_id` and commits.  There is no existence check for
the contract, and SQLite does not enforce foreign keys unless the pragma is
enabled (this application never enables it), so the insert always succeeds. -/
def record_revenue (db : DB) (cid : Nat) (amt : ℚ) (rdate : CalDate) (desc : String) : DB :=
  { db with
      revenues := db.revenues ++
        [{ id := db.revenues.length + 1, contract_id := cid, amount := amt
           date := rdate, description := desc }] }

/-- The `finance_form` submit handler for an Expense record (same shape as
the Revenue branch: no contract-existence check, insert always succeeds). -/
def record_expense (db : DB) (cid : Nat) (amt : ℚ) (rdate : CalDate) (desc : String) : DB :=
  { db with
      expenses := db.expenses ++
        [{ id := db.expenses.length + 1, contract_id := cid, amount := amt
           description := desc, date := rdate }] }

/-- The `finance_form` submit handler for an EquityAward record (same shape:
no contract-existence check, insert always succeeds). -/
def award_equity (db : DB) (cid : Nat) (recipient : String) (pct : ℚ) (notes : String)
    (edate : CalDate) : DB :=
  { db with
      equities := db.equities ++
        [{ id := db.equities.length + 1, contract_id := cid, recipient := recipient
           percent := pct, notes := notes, date := edate }] }

/-- Zero-padded two-digit rendering used by ISO-8601 month and day. -/
def pad2 (n : Nat) : String :=
  if n < 10 then "0" ++ toString n else toString n

/-- Zero-padded four-digit rendering used by ISO-8601 years. -/
def pad4 (n : Nat) : String :=
  if n < 10 then "000" ++ toString n
  else if n < 100 then "00" ++ toString n
  else if n < 1000 then "0" ++ toString n
  else toString n

/-- `date.isoformat()`: `YYYY-MM-DD`. -/
def isoDate (d : CalDate) : String :=
  pad4 d.year ++ "-" ++ pad2 d.month ++ "-" ++ pad2 d.day

/-- Decimal digits of `r / d` (0 ≤ r < d) by long division, stopping at a
zero remainder; the fuel bounds the number of digits (the exported values
come from `Numeric(14, 2)` columns, so at most two digits are ever needed). -/
def fracDigits : Nat → Nat → Nat → String
  | _, _, 0 => ""
  | r, d, fuel + 1 =>
      if r = 0 then ""
      else toString (r * 10 / d) ++ fracDigits (r * 10 % d) d fuel

/-- Rendering of a numeric cell as pandas prints a float column: plain
decimal, sign, at least one fractional digit (so `800` prints as "800.0"). -/
def ratStr (q : ℚ) : String :=
  let a := if q < 0 then -q else q
  let ip := a.num.toNat / a.den
  let fs := fracDigits (a.num.toNat % a.den) a.den 17
  (if q < 0 then "-" else "") ++ toString ip ++ "." ++ (if fs = "" then "0" else fs)

/-- Minimal CSV quoting as `to_csv` performs it: a cell containing a comma,
quote or line break is wrapped in double quotes with inner quotes doubled. -/
def csvCell (s : String) : String :=
  if s.any (fun ch => ch == ',' || ch == '"' || ch == '\n' || ch == '\r') then
    "\"" ++ s.foldl (fun acc ch => acc ++ if ch == '"' then "\"\"" else String.singleton ch) "" ++ "\""
  else s

/-- `c.subsidiary.name`: the relationship navigates the foreign key; under the
schema every contract references an existing subsidiary, so the row is found
(a dangling reference, impossible under the invariant, renders as ""). -/
def subsidiaryName (db : DB) (c : Contract) : String :=
  ((db.subsidiaries.find? (fun s => s.id == c.subsidiary_id)).map (fun s => s.name)).getD ""

/-- `c.client.name`, as for `subsidiaryName`. -/
def clientName (db : DB) (c : Contract) : String :=
  ((db.clients.find? (fun cl => cl.id == c.client_id)).map (fun cl => cl.name)).getD ""

/-- The header line of the contracts export: the keys of the row dicts, in
insertion order, as pandas emits them. -/
def csvHeader : String :=
  "contract_id,title,subsidiary,client,status,contract_value,retainer,signed_date,revenue,expenses,profit"

/-- One data row of the contracts export, cells in the fixed dict-key order:
contract id, title, subsidiary name, client name, status, contract value,
retainer, signed date (ISO-8601 or empty string), then the three aggregates
of `calc_contract_aggregates`. -/
def rowCells (db : DB) (c : Contract) : List String :=
  let a := calc_contract_aggregates db c
  [ toString c.id
  , csvCell c.title
  , csvCell (subsidiaryName db c)
  , csvCell (clientName db c)
  , csvCell c.status
  , ratStr (c.contract_value.getD 0)
  , ratStr (c.retainer.getD 0)
  , (match c.signed_date with
     | some d => isoDate d
     | none => "")
  , ratStr a.revenue
  , ratStr a.expenses
  , ratStr a.profit ]

/-- The "Export all contracts CSV" handler: build one row dict per contract,
then `pd.DataFrame(rows).to_csv(index=False)`.  A `DataFrame` built from an
empty list has no columns, and `to_csv` of it emits a single newline — no
header row; otherwise the header line is followed by one line per contract. -/
def export_contracts_csv (db : DB) : String :=
  let rows := db.contracts.map (fun c => rowCells db c)
  if rows.isEmpty then "\n"
  else csvHeader ++ "\n" ++ String.join (rows.map (fun r => String.intercalate "," r ++ "\n"))

/-- The database produced by the first bootstrap call on an empty database:
one parent company named "Black Bear Holdings" and the two default
subsidiaries. -/
def bootOnceDB : DB :=
  { emptyDB with
      companies := [{ id := 1, name := "Black Bear Holdings", is_parent := true }]
      subsidiaries :=
        [ { id := 1, name := "NexxusGovSec", company_id := 1 }
        , { id := 2, name := "3SixMedia", company_id := 1 } ] }

end Erp

open Erp

/-- C1: for every contract, `calc_contract_aggregates` returns revenue equal to
the sum of the `Revenue.amount` rows of that contract, expenses equal to the
sum of the `Expense.amount` rows, `profit = revenue - expenses`, and
`subsidiary_share = profit * percent_to_subsidiary / 100`; on the spec's
example (revenues [500, 300], expenses [200], percent 50) it yields
revenue 800, expenses 200, profit 600, subsidiary share 300. -/
theorem C1_contract_aggregate_correct :
    (∀ (db : DB) (c : Contract),
      (calc_contract_aggregates db c).revenue =
        ((db.revenues.filter (fun r => r.contract_id == c.id)).map
          (fun r => r.amount)).sum ∧
      (calc_contract_aggregates db c).expenses =
        ((db.expenses.filter (fun e => e.contract_id == c.id)).map
          (fun e => e.amount)).sum ∧
      (calc_contract_aggregates db c).profit =
        (calc_contract_aggregates db c).revenue -
          (calc_contract_aggregates db c).expenses ∧
      (calc_contract_aggregates db c).subsidiary_share =
        (calc_contract_aggregates db c).profit *
          (c.percent_to_subsidiary.getD 0) / 100) ∧
    calc_contract_aggregates exampleDB exampleContract =
      { revenue := 800, expenses := 200, profit := 600, subsidiary_share := 300 } := by
  refine ⟨fun db c => ⟨rfl, rfl, rfl, rfl⟩, ?_⟩
  norm_num [calc_contract_aggregates, exampleDB, exampleContract]

/-- C5: a contract with no revenue rows and no expense rows (in particular a
contract id matching no rows at all) aggregates to all zeros, with no error
(the function is total). -/
theorem C5_empty_contract_zero (db : DB) (c : Contract)
    (hrev : db.revenues.filter (fun r => r.contract_id == c.id) = [])
    (hexp : db.expenses.filter (fun e => e.contract_id == c.id) = []) :
    calc_contract_aggregates db c =
      { revenue := 0, expenses := 0, profit := 0, subsidiary_share := 0 } := by
  simp [calc_contract_aggregates, hrev, hexp]

/-- Witness for C5: in the example database, a contract with id 99 has no
revenue or expense rows and aggregates to zero. -/
theorem C5_empty_contract_zero_witness :
    calc_contract_aggregates exampleDB { exampleContract with id := 99 } =
      { revenue := 0, expenses := 0, profit := 0, subsidiary_share := 0 } :=
  C5_empty_contract_zero exampleDB { exampleContract with id := 99 }
    (by decide) (by decide)

namespace Erp

/-- The accumulation loop of `aggregate_for_subsidiary` adds, component by
component, the per-contract aggregates to the accumulator, and leaves the
`contracts` count untouched. -/
theorem subsidiary_fold_spec (db : DB) (l : List Contract) (init : SubsidiaryAgg) :
    l.foldl
      (fun agg c =>
        let a := calc_contract_aggregates db c
        { agg with
          revenue := agg.revenue + a.revenue
          expenses := agg.expenses + a.expenses
          profit := agg.profit + a.profit })
      init =
    { revenue := init.revenue + (l.map (fun c => (calc_contract_aggregates db c).revenue)).sum
      expenses := init.expenses + (l.map (fun c => (calc_contract_aggregates db c).expenses)).sum
      profit := init.profit + (l.map (fun c => (calc_contract_aggregates db c).profit)).sum
      contracts := init.contracts } := by
  induction l generalizing init with
  | nil => simp
  | cons c rest ih =>
      simp only [List.foldl_cons, List.map_cons, List.sum_cons, ih]
      cases init
      simp
      constructor
      · ring
      · constructor <;> ring

/-- The accumulation loop of `aggregate_for_company` adds, component by
component, the per-subsidiary aggregates to the accumulator, and leaves the
`subsidiaries` count untouched. -/
theorem company_fold_spec (db : DB) (l : List Subsidiary) (init : CompanyAgg) :
    l.foldl
      (fun agg s =>
        let a := aggregate_for_subsidiary db s.id
        { agg with
          revenue := agg.revenue + a.revenue
          expenses := agg.expenses + a.expenses
          profit := agg.profit + a.profit })
      init =
    { revenue := init.revenue + (l.map (fun s => (aggregate_for_subsidiary db s.id).revenue)).sum
      expenses := init.expenses + (l.map (fun s => (aggregate_for_subsidiary db s.id).expenses)).sum
      profit := init.profit + (l.map (fun s => (aggregate_for_subsidiary db s.id).profit)).sum
      subsidiaries := init.subsidiaries } := by
  induction l generalizing init with
  | nil => simp
  | cons s rest ih =>
      simp only [List.foldl_cons, List.map_cons, List.sum_cons, ih]
      cases init
      simp
      constructor
      · ring
      · constructor <;> ring

end Erp

/-- C3: for every subsidiary id, `aggregate_for_subsidiary` returns the sums
of `calc_contract_aggregates`'s revenue, expenses and raw (un-split) profit
over the contracts with that `subsidiary_id` — it sums `profit`, not
`subsidiary_share` — together with the number of such contracts. -/
theorem C3_subsidiary_aggregate_sums (db : DB) (sid : Nat) :
    aggregate_for_subsidiary db sid =
      { revenue :=
          ((db.contracts.filter (fun c => c.subsidiary_id == sid)).map
            (fun c => (calc_contract_aggregates db c).revenue)).sum
        expenses :=
          ((db.contracts.filter (fun c => c.subsidiary_id == sid)).map
            (fun c => (calc_contract_aggregates db c).expenses)).sum
        profit :=
          ((db.contracts.filter (fun c => c.subsidiary_id == sid)).map
            (fun c => (calc_contract_aggregates db c).profit)).sum
        contracts :=
          (db.contracts.filter (fun c => c.subsidiary_id == sid)).length } := by
  unfold aggregate_for_subsidiary
  rw [Erp.subsidiary_fold_spec]
  simp

/-- C4: for every company id, `aggregate_for_company` returns the sums of
`aggregate_for_subsidiary`'s revenue, expenses and profit over the
subsidiaries with that `company_id`, together with the number of such
subsidiaries. -/
theorem C4_company_aggregate_sums (db : DB) (cid : Nat) :
    aggregate_for_company db cid =
      { revenue :=
          ((db.subsidiaries.filter (fun s => s.company_id == cid)).map
            (fun s => (aggregate_for_subsidiary db s.id).revenue)).sum
        expenses :=
          ((db.subsidiaries.filter (fun s => s.company_id == cid)).map
            (fun s => (aggregate_for_subsidiary db s.id).expenses)).sum
        profit :=
          ((db.subsidiaries.filter (fun s => s.company_id == cid)).map
            (fun s => (aggregate_for_subsidiary db s.id).profit)).sum
        subsidiaries :=
          (db.subsidiaries.filter (fun s => s.company_id == cid)).length } := by
  unfold aggregate_for_company
  rw [Erp.company_fold_spec]
  simp

/-- C10: both rollups are total functions and return all-zero totals on ids
that match no rows: a subsidiary id with no contracts yields zeros with
`contracts = 0`, and a company id with no subsidiaries yields zeros with
`subsidiaries = 0` (in particular for ids matching no Subsidiary or Company
row at all). -/
theorem C10_rollup_zero_on_no_rows (db : DB) (sid cid : Nat) :
    (db.contracts.filter (fun c => c.subsidiary_id == sid) = [] →
      aggregate_for_subsidiary db sid =
        { revenue := 0, expenses := 0, profit := 0, contracts := 0 }) ∧
    (db.subsidiaries.filter (fun s => s.company_id == cid) = [] →
      aggregate_for_company db cid =
        { revenue := 0, expenses := 0, profit := 0, subsidiaries := 0 }) := by
  constructor
  · intro h
    simp [aggregate_for_subsidiary, h]
  · intro h
    simp [aggregate_for_company, h]

/-- C2 (code bug): the bootstrap handler is not idempotent.  The first call
on an empty database succeeds and creates the parent "Black Bear Holdings"
and the two default subsidiaries, but the second call looks up a company
named "BBH", finds none (the stored row is named "Black Bear Holdings"),
inserts a second company with that name and hits the UNIQUE constraint on
`companies.name` — a duplicate error, contrary to the source's own
"idempotent creation" comment. -/
theorem C2_bootstrap_second_call_errors :
    bootstrap_default_org emptyDB = Except.ok bootOnceDB ∧
    (bootOnceDB.companies.filter (fun c => c.is_parent)).length = 1 ∧
    bootOnceDB.subsidiaries.length = 2 ∧
    bootstrap_default_org bootOnceDB =
      Except.error "UNIQUE constraint failed: companies.name" := by
  refine ⟨rfl, rfl, rfl, rfl⟩

/-- C6: for a non-empty name, creating a Client or a Subsidiary whose name
exactly matches an existing row of the same type is rejected with the
duplicate warning and leaves the database unchanged; otherwise the new row is
appended and a success message returned. -/
theorem C6_duplicate_name_rejected (db : DB)
    (cname contact email sname pname : String) (pid : Nat)
    (hc : cname ≠ "") (hs : sname ≠ "") :
    ((db.clients.filter (fun c => c.name == cname)).isEmpty = false →
      create_client db cname contact email = (db, UiMsg.warning "Client exists")) ∧
    ((db.clients.filter (fun c => c.name == cname)).isEmpty = true →
      create_client db cname contact email =
        ({ db with
            clients := db.clients ++
              [{ id := db.clients.length + 1, name := cname, contact := contact, email := email }] },
          UiMsg.success ("Created client: " ++ cname))) ∧
    ((db.subsidiaries.filter (fun s => s.name == sname)).isEmpty = false →
      create_subsidiary db sname (some (pname, pid)) =
        (db, UiMsg.warning "Subsidiary exists")) ∧
    ((db.subsidiaries.filter (fun s => s.name == sname)).isEmpty = true →
      create_subsidiary db sname (some (pname, pid)) =
        ({ db with
            subsidiaries := db.subsidiaries ++
              [{ id := db.subsidiaries.length + 1, name := sname, company_id := pid }] },
          UiMsg.success ("Created subsidiary " ++ sname ++ " under " ++ pname))) := by
  refine ⟨fun h => ?_, fun h => ?_, fun h => ?_, fun h => ?_⟩ <;>
    simp [create_client, create_subsidiary, hc, hs, h]

/-- Witness for C6: in the example database, client "Acme" and subsidiary
"NexxusGovSec" already exist, so re-creating them is rejected and the state
unchanged, while fresh names are inserted. -/
theorem C6_duplicate_name_rejected_witness :
    create_client exampleDB "Acme" "c" "e" = (exampleDB, UiMsg.warning "Client exists") ∧
    create_client exampleDB "NewCo" "c" "e" =
      ({ exampleDB with
          clients := exampleDB.clients ++
            [{ id := exampleDB.clients.length + 1, name := "NewCo", contact := "c", email := "e" }] },
        UiMsg.success ("Created client: " ++ "NewCo")) ∧
    create_subsidiary exampleDB "NexxusGovSec" (some ("Black Bear Holdings", 1)) =
      (exampleDB, UiMsg.warning "Subsidiary exists") ∧
    create_subsidiary exampleDB "FreshSub" (some ("Black Bear Holdings", 1)) =
      ({ exampleDB with
          subsidiaries := exampleDB.subsidiaries ++
            [{ id := exampleDB.subsidiaries.length + 1, name := "FreshSub", company_id := 1 }] },
        UiMsg.success ("Created subsidiary " ++ "FreshSub" ++ " under " ++ "Black Bear Holdings")) :=
  ⟨(C6_duplicate_name_rejected exampleDB "Acme" "c" "e" "x" "p" 1
      (by decide) (by decide)).1 (by decide),
   (C6_duplicate_name_rejected exampleDB "NewCo" "c" "e" "x" "p" 1
      (by decide) (by decide)).2.1 (by decide),
   (C6_duplicate_name_rejected exampleDB "Acme" "c" "e" "NexxusGovSec" "Black Bear Holdings" 1
      (by decide) (by decide)).2.2.1 (by decide),
   (C6_duplicate_name_rejected exampleDB "Acme" "c" "e" "FreshSub" "Black Bear Holdings" 1
      (by decide) (by decide)).2.2.2 (by decide)⟩

/-- C7 (code bug): recording a Revenue, Expense or EquityAward against a
contract id that resolves to no Contract does not fail — the handler performs
no existence check and SQLite foreign keys are unenforced — it silently
inserts a dangling row.  Here contract id 999 matches no contract in the
empty database, yet each of the three operations inserts exactly one row. -/
theorem C7_dangling_insert_succeeds :
    emptyDB.contracts.filter (fun c => c.id == 999) = [] ∧
    (record_revenue emptyDB 999 100 ⟨2024, 1, 1⟩ "").revenues =
      [{ id := 1, contract_id := 999, amount := 100, date := ⟨2024, 1, 1⟩, description := "" }] ∧
    (record_expense emptyDB 999 100 ⟨2024, 1, 1⟩ "").expenses =
      [{ id := 1, contract_id := 999, amount := 100, description := "", date := ⟨2024, 1, 1⟩ }] ∧
    (award_equity emptyDB 999 "partner" 10 "" ⟨2024, 1, 1⟩).equities =
      [{ id := 1, contract_id := 999, recipient := "partner", percent := 10, notes := ""
         date := ⟨2024, 1, 1⟩ }] :=
  ⟨rfl, rfl, rfl, rfl⟩

/-- Witness for C10: in the example database, subsidiary id 42 has no
contracts and company id 42 has no subsidiaries; both rollups are zero. -/
theorem C10_rollup_zero_on_no_rows_witness :
    aggregate_for_subsidiary exampleDB 42 =
      { revenue := 0, expenses := 0, profit := 0, contracts := 0 } ∧
    aggregate_for_company exampleDB 42 =
      { revenue := 0, expenses := 0, profit := 0, subsidiaries := 0 } :=
  ⟨(C10_rollup_zero_on_no_rows exampleDB 42 42).1 (by decide),
   (C10_rollup_zero_on_no_rows exampleDB 42 42).2 (by decide)⟩

/-- C8 counterexample: exporting zero contracts does NOT yield a CSV with a
header row — the output is a single newline with no header (pandas derives
columns from the row dicts, and there are none). -/
theorem C8_zero_contracts_no_header :
    export_contracts_csv emptyDB = "\n" ∧
    export_contracts_csv emptyDB ≠ csvHeader ++ "\n" := by
  exact ⟨rfl, by decide⟩

/-- C8 (amended): exporting zero contracts yields a single newline (no header
row and no data rows); with at least one contract, the export is the fixed
header line followed by one line per contract, whose cells are in the fixed
column order — cell 0 the contract id, cell 7 the signed date as ISO-8601 or
the empty string, cells 8..10 the revenue, expenses and profit aggregates. -/
theorem C8_export_structure (db : DB) :
    (db.contracts = [] → export_contracts_csv db = "\n") ∧
    (db.contracts ≠ [] →
      export_contracts_csv db =
        "contract_id,title,subsidiary,client,status,contract_value,retainer,signed_date,revenue,expenses,profit\n"
        ++ String.join (db.contracts.map (fun c => String.intercalate "," (rowCells db c) ++ "\n"))) ∧
    (∀ c : Contract, (rowCells db c).length = 11) ∧
    (∀ c : Contract, (rowCells db c)[0]? = some (toString c.id)) ∧
    (∀ c : Contract,
      (rowCells db c)[7]? =
        some (match c.signed_date with
              | some d => isoDate d
              | none => "")) ∧
    (∀ c : Contract,
      (rowCells db c)[8]? = some (ratStr (calc_contract_aggregates db c).revenue) ∧
      (rowCells db c)[9]? = some (ratStr (calc_contract_aggregates db c).expenses) ∧
      (rowCells db c)[10]? = some (ratStr (calc_contract_aggregates db c).profit)) := by
  refine ⟨fun h => ?_, fun h => ?_, fun c => rfl, fun c => rfl, fun c => rfl,
    fun c => ⟨rfl, rfl, rfl⟩⟩
  · simp [export_contracts_csv, h]
  · cases hcs : db.contracts with
    | nil => exact absurd hcs h
    | cons c rest =>
        simp [export_contracts_csv, hcs, csvHeader, Function.comp_def]

/-- Witness for C8: the empty database exports as a single newline, and the
example database (one contract) exports as the header line plus its rows. -/
theorem C8_export_structure_witness :
    export_contracts_csv emptyDB = "\n" ∧
    export_contracts_csv exampleDB =
      "contract_id,title,subsidiary,client,status,contract_value,retainer,signed_date,revenue,expenses,profit\n"
      ++ String.join (exampleDB.contracts.map
          (fun c => String.intercalate "," (rowCells exampleDB c) ++ "\n")) :=
  ⟨(C8_export_structure emptyDB).1 rfl,
   (C8_export_structure exampleDB).2.1 (by decide)⟩
